import Mathlib

/-!
Shallow embedding of the ign-gazebo repository fragment:
  * `src/systems/log/LogPlayback.cc`   (log playback system)
  * `src/systems/altimeter/Altimeter.cc` (altimeter sensor system)
  * `include/ignition/gazebo/components/Geometry.hh` (geometry wire format)
Machine doubles are modelled as exact rationals (`Rat`); simulated time
stamps are rationals; entities are natural numbers.
-/

namespace IgnGazebo

/-- 3D vector (ignition::math::Vector3d), doubles modelled as rationals. -/
structure Vec3 where
  x : Rat
  y : Rat
  z : Rat
deriving DecidableEq

/-- Orientation quaternion (ignition::math::Quaterniond). -/
structure Quat where
  w : Rat
  x : Rat
  y : Rat
  z : Rat
deriving DecidableEq

/-- Rigid-body pose (ignition::math::Pose3d): position + orientation. -/
structure Pose3 where
  pos : Vec3
  rot : Quat
deriving DecidableEq

/-! ## ECM model for the log playback system

`LogPlayback` touches the ECM through `Each<components::Pose>` and
`SetState`.  An entity record carries its id, its optional `Pose`
component, and all its other components as an opaque kind-name/value
association list. -/

/-- One ECM entity with its components, as seen by the playback system. -/
structure EcmEntity where
  id : Nat
  pose : Option Pose3
  other : List (String × String)
deriving DecidableEq

/-- Entity-component-manager state: the list of live entities. -/
structure Ecm where
  entities : List EcmEntity
deriving DecidableEq

/-- One `ignition.msgs.Pose` entry of a `Pose_V` message: entity id + pose. -/
structure PoseRec where
  id : Nat
  pose : Pose3
deriving DecidableEq

/-- The `idToPose` map of `LogPlaybackPrivate::ParsePoseV`: entries are put
in with `insert_or_assign` in message order, so the last record for an id
wins; lookup therefore finds the last matching record. -/
def idToPose (poses : List PoseRec) (e : Nat) : Option Pose3 :=
  (poses.reverse.find? (fun r => r.id = e)).map (fun r => r.pose)

/-- Visitor body of the `Each<components::Pose>` loop of `ParsePoseV`:
entities without a `Pose` component are not visited; a visited entity
with a recorded pose has its `Pose` component overwritten, any other is
left alone. -/
def parsePoseVEntity (poses : List PoseRec) (ent : EcmEntity) : EcmEntity :=
  match ent.pose with
  | none => ent
  | some _ =>
    match idToPose poses ent.id with
    | none => ent
    | some p => { ent with pose := some p }

/-- Embeds `LogPlaybackPrivate::ParsePoseV`: walk every entity that has a `Pose`
component (`Each<components::Pose>`); when the `idToPose` map has an entry
for it, overwrite the `Pose` component with the recorded pose. -/
def ParsePoseV (poses : List PoseRec) (ecm : Ecm) : Ecm :=
  { entities := ecm.entities.map (parsePoseVEntity poses) }

/-- Overwrite the components of `cur` with those present in `snap`
(components of `cur` that the snapshot does not mention survive). -/
def mergeEntity (snap cur : EcmEntity) : EcmEntity :=
  { id := cur.id
    pose := match snap.pose with
      | some p => some p
      | none => cur.pose
    other := (snap.other.filter (fun kv =>
        (cur.other.find? (fun kv2 => kv2.1 = kv.1)).isNone)) ++
      cur.other.map (fun kv =>
        match snap.other.find? (fun kv2 => kv2.1 = kv.1) with
        | some kv2 => kv2
        | none => kv) }

/-- Modelled from the spec: `EntityComponentManager::SetState` (the
implementation lives in `EntityComponentManager.cc`, which is not part of
this fragment).  Spec 4.1: overwrite the component graph from a snapshot;
entities present in the snapshot but absent in the ECM are created;
components in the snapshot overwrite existing ones. -/
def SetState (snapshot : Ecm) (ecm : Ecm) : Ecm :=
  { entities :=
      ecm.entities.map (fun cur =>
        match snapshot.entities.find? (fun s => s.id = cur.id) with
        | some snap => mergeEntity snap cur
        | none => cur) ++
      snapshot.entities.filter (fun s =>
        (ecm.entities.find? (fun cur => cur.id = s.id)).isNone) }

/-! ## The message log and the playback state -/

/-- One timestamped message of the `state.tlog` batch.  `timeReceived` is
the recorded simulated time; the payload depends on the type string. -/
inductive LogMsg where
  | poseV (timeReceived : Rat) (poses : List PoseRec)
  | serializedState (timeReceived : Rat) (snapshot : Ecm)
  | unsupported (timeReceived : Rat) (typeName : String)
deriving DecidableEq

/-- Accessor `TimeReceived()` of a log message. -/
def LogMsg.timeReceived : LogMsg → Rat
  | .poseV t _ => t
  | .serializedState t _ => t
  | .unsupported t _ => t

/-- State of `LogPlaybackPrivate`: the batch of messages, the iterator
position into it (`iter == batch.end()` iff `idx ≥ batch.length`), and
the one-shot `printedEnd` latch. -/
structure PlaybackState where
  batch : List LogMsg
  idx : Nat
  printedEnd : Bool
deriving DecidableEq

/-- Messages the playback system emits on its console/error channels. -/
inductive Emission where
  | completion
  | warnUnsupported (typeName : String)
  | errConfig (what : String)
deriving DecidableEq

/-- Recogniser for `Emission.errConfig`. -/
def Emission.isError : Emission → Bool
  | .errConfig _ => true
  | _ => false

/-- Embeds `LogPlayback::Update`: return if paused; if the cursor is exhausted,
print the completion message once and return; if simulated time has not
reached the `TimeReceived` of the current message, return without advancing;
otherwise apply the message by type (warning for unknown types) and
advance the cursor by one. -/
def LogPlayback.Update (paused : Bool) (simTime : Rat)
    (st : PlaybackState) (ecm : Ecm) : PlaybackState × Ecm × List Emission :=
  if paused then (st, ecm, [])
  else
    match st.batch[st.idx]? with
    | none =>
      if st.printedEnd then (st, ecm, [])
      else ({ st with printedEnd := true }, ecm, [.completion])
    | some msg =>
      if simTime < msg.timeReceived then (st, ecm, [])
      else
        match msg with
        | .poseV _ poses =>
          ({ st with idx := st.idx + 1 }, ParsePoseV poses ecm, [])
        | .serializedState _ snap =>
          ({ st with idx := st.idx + 1 }, SetState snap ecm, [])
        | .unsupported _ ty =>
          ({ st with idx := st.idx + 1 }, ecm, [.warnUnsupported ty])

/-- Run a sequence of `Update` calls; each input is a (paused, simTime)
pair.  Emissions are concatenated in order. -/
def runUpdates (inputs : List (Bool × Rat)) (st : PlaybackState) (ecm : Ecm) :
    PlaybackState × Ecm × List Emission :=
  match inputs with
  | [] => (st, ecm, [])
  | (p, t) :: rest =>
    let r := LogPlayback.Update p t st ecm
    let r2 := runUpdates rest r.1 r.2.1
    (r2.1, r2.2.1, r.2.2 ++ r2.2.2)

/-! ## `LogPlayback::Configure` -/

/-- Does `pat` occur at the very start of the character list? -/
def leadingMatch : List Char → List Char → Bool
  | [], _ => true
  | _ :: _, [] => false
  | a :: as, b :: bs => a = b && leadingMatch as bs

/-- Does `pat` occur somewhere in the character list? -/
def strContainsAux (pat : List Char) : List Char → Bool
  | [] => pat.isEmpty
  | c :: rest => leadingMatch pat (c :: rest) || strContainsAux pat rest

/-- Substring containment, `std::string::find(pat) != npos`. -/
def strContains (s pat : String) : Bool :=
  strContainsAux pat.toList s.toList

/-- A `<plugin>` declaration of the loaded SDF world: its `name`
attribute (absent when the element has no such attribute) and its
remaining content, opaque here. -/
structure Plugin where
  name : Option String
  content : String
deriving DecidableEq

/-- Predicate: `LogPlayback::Configure` flags a plugin for removal iff it has a
`name` attribute whose value contains `LogRecord` or `Physics`. -/
def pluginRemoved (p : Plugin) : Bool :=
  match p.name with
  | some n => strContains n "LogRecord" || strContains n "Physics"
  | none => false

/-- The inputs `LogPlayback::Configure` reads from the SDF configuration
and from the filesystem/log collaborators, abstracted to the outcomes the
code branches on. -/
structure ConfigInput where
  path : String
  isDirectory : Bool
  tlogExists : Bool
  sdfExists : Bool
  sdfLoadOk : Bool
  plugins : List Plugin
  logOpenOk : Bool
  messages : List LogMsg
deriving DecidableEq

/-- The `LoadPlugins` event payload: the surviving plugin
declarations after in-place removal. -/
structure LoadPluginsEvent where
  plugins : List Plugin
deriving DecidableEq

/-- Embeds `LogPlayback::Configure`.  Early-returns (empty path, path not a
directory, `state.tlog`/`state.sdf` missing, SDF load failure) leave the
default-constructed state, whose iterator already equals `batch.end()`.
On the surviving path it removes the flagged plugins, emits the
`LoadPlugins` event, opens the log (an open failure is reported but does
not return, leaving an empty batch) and positions the iterator at the
first message, reporting an error when there is none. -/
def LogPlayback.Configure (cfg : ConfigInput) :
    PlaybackState × Option LoadPluginsEvent × List Emission :=
  let empty : PlaybackState := { batch := [], idx := 0, printedEnd := false }
  if cfg.path.isEmpty then
    (empty, none, [.errConfig "unspecified log path"])
  else if !cfg.isDirectory then
    (empty, none, [.errConfig "log path must be a directory"])
  else if !(cfg.tlogExists && cfg.sdfExists) then
    (empty, none, [.errConfig "log path invalid, files do not exist"])
  else if !cfg.sdfLoadOk then
    (empty, none, [.errConfig "error loading SDF file"])
  else
    let surviving := cfg.plugins.filter (fun p => !pluginRemoved p)
    let batch := if cfg.logOpenOk then cfg.messages else []
    let st : PlaybackState := { batch := batch, idx := 0, printedEnd := false }
    let ems :=
      (if cfg.logOpenOk then [] else [Emission.errConfig "failed to open log file"]) ++
      (if batch.isEmpty then [Emission.errConfig "no messages found in log file"] else [])
    (st, some { plugins := surviving }, ems)

/-- Any of the configuration failures of spec 7: missing path, not a
directory, missing `state.tlog`/`state.sdf`, scene load failure, failure
to open the log, empty log. -/
def configError (cfg : ConfigInput) : Bool :=
  cfg.path.isEmpty || !cfg.isDirectory || !(cfg.tlogExists && cfg.sdfExists) ||
  !cfg.sdfLoadOk || !cfg.logOpenOk || cfg.messages.isEmpty

/-! ## Altimeter system (`Altimeter.cc`)

`AltimeterPrivate::UpdateAltimeters` iterates
`Each<Altimeter, WorldPose, WorldLinearVelocity>`; the ECM is modelled by
the list of entities together with those three component slots. -/

/-- The per-sensor record of class `AltimeterSensor` (publisher handle
omitted; publishing is modelled by `altPublish`). -/
structure AltimeterSensor where
  topic : String
  verticalPosition : Rat
  verticalVelocity : Rat
  verticalReference : Rat
deriving DecidableEq

/-- One ECM entity as seen by the altimeter system: the `Altimeter`
marker plus the optional derived `WorldPose` / `WorldLinearVelocity`
components. -/
structure AltEntity where
  id : Nat
  hasAltimeter : Bool
  worldPose : Option Pose3
  worldLinearVelocity : Option Vec3
deriving DecidableEq

/-- Does `Each<Altimeter, WorldPose, WorldLinearVelocity>` visit this
entity? -/
def altMatches (e : AltEntity) : Bool :=
  e.hasAltimeter && e.worldPose.isSome && e.worldLinearVelocity.isSome

/-- Lookup `entitySensorMap.find`: the entry with the given key (an
`unordered_map` holds each key at most once; this retrieves the first
matching entry). -/
def getSensor : List (Nat × AltimeterSensor) → Nat → Option AltimeterSensor
  | [], _ => none
  | p :: rest, i => if p.1 = i then some p.2 else getSensor rest i

/-- Overwrite the sensor record stored under key `i` through the
`entitySensorMap` iterator. -/
def setSensor : List (Nat × AltimeterSensor) → Nat → AltimeterSensor →
    List (Nat × AltimeterSensor)
  | [], _, _ => []
  | p :: rest, i, s => (if p.1 = i then (i, s) else p) :: setSensor rest i s

/-- The sensor-not-found console error of `UpdateAltimeters`. -/
inductive AltEmission where
  | errNotFound (entity : Nat)
deriving DecidableEq

/-- Body of the `UpdateAltimeters` visitor for one visited entity. -/
def updateAltStep (acc : List (Nat × AltimeterSensor) × List AltEmission)
    (e : AltEntity) : List (Nat × AltimeterSensor) × List AltEmission :=
  if altMatches e then
    match e.worldPose, e.worldLinearVelocity with
    | some wp, some v =>
      match getSensor acc.1 e.id with
      | some s =>
        (setSensor acc.1 e.id
          { s with verticalPosition := wp.pos.z - s.verticalReference
                   verticalVelocity := v.z }, acc.2)
      | none => (acc.1, acc.2 ++ [.errNotFound e.id])
    | _, _ => acc
  else acc

/-- Embeds `AltimeterPrivate::UpdateAltimeters`: for every entity carrying
`Altimeter`, `WorldPose` and `WorldLinearVelocity`, set the mapped
mapped `verticalPosition` to worldPose.Z − verticalReference and its
`verticalVelocity` to worldLinearVelocity.Z; emit an error when the
entity is not in the map. -/
def UpdateAltimeters (ecm : List AltEntity)
    (m : List (Nat × AltimeterSensor)) :
    List (Nat × AltimeterSensor) × List AltEmission :=
  ecm.foldl updateAltStep (m, [])

/-- The `ignition.msgs.Altimeter` message published by
`AltimeterSensor::Publish`. -/
structure AltimeterMsg where
  vertical_position : Rat
  vertical_velocity : Rat
  vertical_reference : Rat
deriving DecidableEq

/-- Embeds `AltimeterSensor::Publish`: skip when the topic is empty, otherwise
publish the current reading. -/
def altPublish (s : AltimeterSensor) : Option AltimeterMsg :=
  if s.topic.isEmpty then none
  else some { vertical_position := s.verticalPosition
              vertical_velocity := s.verticalVelocity
              vertical_reference := s.verticalReference }

/-- Embeds `Altimeter::PostUpdate`: do nothing when paused; otherwise run
`UpdateAltimeters` and publish every sensor of the map.  Returns the
updated map, the console errors, and the published messages keyed by
entity. -/
def Altimeter.PostUpdate (paused : Bool) (ecm : List AltEntity)
    (m : List (Nat × AltimeterSensor)) :
    List (Nat × AltimeterSensor) × List AltEmission ×
      List (Nat × AltimeterMsg) :=
  if paused then (m, [], [])
  else
    let r := UpdateAltimeters ecm m
    (r.1, r.2, r.1.filterMap (fun p =>
      (altPublish p.2).map (fun msg => (p.1, msg))))

/-! ## Topic naming resolver (`AltimeterPrivate::DefaultTopic`)

`Component<K>(entity)` returns a null pointer when the component is
absent; the source dereferences several of these results without a check.
The embedding marks such a dereference of the absent sentinel with
`TopicResult.nullDeref` (undefined behaviour in the C++).  The while loop
is given explicit fuel; `TopicResult.fuelOut` marks exhaustion (the C++
loop would still be running). -/

/-- The ECM slice the resolver reads: `Name`, `ParentEntity` and the
`World` marker. -/
structure TopicEcm where
  name : Nat → Option String
  parent : Nat → Option Nat
  world : Nat → Bool

/-- Outcome of the resolver in the embedding. -/
inductive TopicResult where
  | ok (topic : String)
  | nullDeref
  | fuelOut
deriving DecidableEq

/-- The `while (p)` loop of `DefaultTopic`: stop when the `ParentEntity`
component is absent or the referenced ancestor carries `World`; otherwise
dereference the `Name` of the ancestor (unchecked in the source) and prepend
`"/model/" + modelName`. -/
def topicLoop (ecm : TopicEcm) : Nat → Option Nat → String → TopicResult
  | _, none, topic => .ok topic
  | 0, some _, _ => .fuelOut
  | fuel + 1, some p, topic =>
    if ecm.world p then .ok topic
    else
      match ecm.name p with
      | none => .nullDeref
      | some modelName =>
        topicLoop ecm fuel (ecm.parent p) (("/model/" ++ modelName) ++ topic)

/-- Embeds `AltimeterPrivate::DefaultTopic`: read the `Name` of the sensor
and the `Name` of its parent (both dereferenced unchecked), build
`"/link/" + linkName + "/sensor/" + sensorName + "/altimeter"`, then walk
the ancestor chain prepending `"/model/" + name` until the world root. -/
def DefaultTopic (ecm : TopicEcm) (fuel : Nat) (entity : Nat) : TopicResult :=
  match ecm.name entity with
  | none => .nullDeref
  | some sensorName =>
    match ecm.parent entity with
    | none => .nullDeref
    | some link =>
      match ecm.name link with
      | none => .nullDeref
      | some linkName =>
        topicLoop ecm fuel (ecm.parent link)
          ("/link/" ++ linkName ++ "/sensor/" ++ sensorName ++ "/altimeter")

/-- The ancestor chain seen by the `DefaultTopic` while loop starting at
parent pointer `p`: `Ascends ecm p names` holds when following
`ParentEntity` links from `p` meets non-world ancestors named by `names`
(innermost first) and then a world-marked ancestor. -/
inductive Ascends (ecm : TopicEcm) : Option Nat → List String → Prop
  | world (w : Nat) : ecm.world w = true → Ascends ecm (some w) []
  | step (e : Nat) (n : String) (rest : List String) :
      ecm.world e = false → ecm.name e = some n →
      Ascends ecm (ecm.parent e) rest → Ascends ecm (some e) (n :: rest)

/-! ## Geometry component wire format (`components/Geometry.hh`)

The stream operators of `Geometry.hh` delegate to
`convert<msgs::Geometry>` / `convert<sdf::Geometry>`, whose bodies
(`Conversions.cc`) are not part of this fragment; they are modelled from
the spec below. -/

/-- An `sdf::Geometry` value: shape kind plus the attributes used by
downstream systems. -/
inductive GeometryShape where
  | empty
  | box (size : Vec3)
  | cylinder (radius length : Rat)
  | plane (normal : Vec3) (width height : Rat)
  | sphere (radius : Rat)
  | mesh (uri : String) (scale : Vec3)
deriving DecidableEq

/-- The `ignition.msgs.Geometry` wire message: a type tag plus the
per-shape optional submessages. -/
structure GeometryMsg where
  shapeType : Nat
  boxSize : Option Vec3
  cylinderRadius : Option Rat
  cylinderLength : Option Rat
  planeNormal : Option Vec3
  planeWidth : Option Rat
  planeHeight : Option Rat
  sphereRadius : Option Rat
  meshUri : Option String
  meshScale : Option Vec3
deriving DecidableEq

/-- The all-absent wire message. -/
def GeometryMsg.blank : GeometryMsg :=
  { shapeType := 0, boxSize := none, cylinderRadius := none,
    cylinderLength := none, planeNormal := none, planeWidth := none,
    planeHeight := none, sphereRadius := none, meshUri := none,
    meshScale := none }

/-- Modelled from the spec: `convert<msgs::Geometry>(sdf::Geometry)`
(`Conversions.cc`, not in this fragment), the serialisation half of
`sdf::operator<<` — a deterministic wire representation carrying every
attribute of the shape. -/
def encodeGeometry : GeometryShape → GeometryMsg
  | .empty => GeometryMsg.blank
  | .box size => { GeometryMsg.blank with shapeType := 1, boxSize := some size }
  | .cylinder r l =>
    { GeometryMsg.blank with
        shapeType := 2
        cylinderRadius := some r
        cylinderLength := some l }
  | .plane n w h =>
    { GeometryMsg.blank with
        shapeType := 3
        planeNormal := some n
        planeWidth := some w
        planeHeight := some h }
  | .sphere r => { GeometryMsg.blank with shapeType := 4, sphereRadius := some r }
  | .mesh uri scale =>
    { GeometryMsg.blank with
        shapeType := 5
        meshUri := some uri
        meshScale := some scale }

/-- Modelled from the spec: `convert<sdf::Geometry>(msgs::Geometry)`
(`Conversions.cc`, not in this fragment), the parsing half of
`sdf::operator>>` — dispatch on the type tag and read the matching
submessage, defaulting absent fields. -/
def decodeGeometry (m : GeometryMsg) : GeometryShape :=
  match m.shapeType with
  | 1 => .box (m.boxSize.getD { x := 0, y := 0, z := 0 })
  | 2 => .cylinder (m.cylinderRadius.getD 0) (m.cylinderLength.getD 0)
  | 3 => .plane (m.planeNormal.getD { x := 0, y := 0, z := 1 })
      (m.planeWidth.getD 0) (m.planeHeight.getD 0)
  | 4 => .sphere (m.sphereRadius.getD 0)
  | 5 => .mesh (m.meshUri.getD "") (m.meshScale.getD { x := 1, y := 1, z := 1 })
  | _ => .empty

/-- Embeds `AltimeterSensor::Load` combined with the default-topic fallback of
`CreateAltimeterEntities`: `Load` copies the `<topic>` element when
present (leaving the empty string otherwise), and the creator replaces an
empty topic by the default of the resolver. -/
def configuredTopic (sdfTopic : Option String) (dflt : String) : String :=
  let loaded := match sdfTopic with
    | some t => t
    | none => ""
  if loaded.isEmpty then dflt else loaded

/-! ## Concrete entity graphs used to evaluate the resolver -/

/-- Scenario S2 entity graph: world 0 ← model `robot` 1 ← model `tool` 2
← link `arm` 3 ← sensor `alt0` 4. -/
def s2TopicEcm : TopicEcm :=
  { name := fun i =>
      match i with
      | 1 => some "robot"
      | 2 => some "tool"
      | 3 => some "arm"
      | 4 => some "alt0"
      | _ => none
    parent := fun i =>
      match i with
      | 1 => some 0
      | 2 => some 1
      | 3 => some 2
      | 4 => some 3
      | _ => none
    world := fun i => i == 0 }

/-- Entity graph whose link 1 carries no `Name` component: world 0 ←
unnamed link 1 ← sensor `alt0` 2. -/
def badTopicEcm : TopicEcm :=
  { name := fun i =>
      match i with
      | 2 => some "alt0"
      | _ => none
    parent := fun i =>
      match i with
      | 1 => some 0
      | 2 => some 1
      | _ => none
    world := fun i => i == 0 }

/-! ## Helper lemmas -/

/-- A non-paused `Update` with exhausted cursor and the latch already set
changes nothing and emits nothing. -/
theorem update_latched (st : PlaybackState) (ecm : Ecm) (t : Rat)
    (hend : st.batch[st.idx]? = none) (hpe : st.printedEnd = true) :
    LogPlayback.Update false t st ecm = (st, ecm, []) := by
  simp [LogPlayback.Update, hend, hpe]

/-- After the latch is set, any sequence of non-paused `Update` calls is a
no-op with no emissions. -/
theorem runUpdates_latched (ts : List Rat) (st : PlaybackState) (ecm : Ecm)
    (hend : st.batch[st.idx]? = none) (hpe : st.printedEnd = true) :
    runUpdates (ts.map (fun t => (false, t))) st ecm = (st, ecm, []) := by
  induction ts with
  | nil => rfl
  | cons t ts ih =>
    simp [runUpdates, update_latched st ecm t hend hpe, ih]

/-! ## C6 -/

/-- C6: any number of consecutive paused ticks leaves the playback state
(including the cursor position) and the ECM unchanged, with no
emissions. -/
theorem paused_updates_are_no_ops (times : List Rat) (st : PlaybackState)
    (ecm : Ecm) :
    runUpdates (times.map (fun t => (true, t))) st ecm = (st, ecm, []) := by
  induction times with
  | nil => rfl
  | cons t ts ih =>
    simp [runUpdates, LogPlayback.Update, ih]

/-! ## C9 -/

/-- C9: with the cursor exhausted and the latch unset, the first
non-paused `Update` emits the completion message exactly once and sets
the latch; every further non-paused call from the latched state is a
complete no-op emitting nothing. -/
theorem completion_emitted_once (st : PlaybackState) (ecm : Ecm) (t : Rat)
    (ts : List Rat) (hend : st.batch[st.idx]? = none)
    (hpe : st.printedEnd = false) :
    LogPlayback.Update false t st ecm =
      ({ st with printedEnd := true }, ecm, [.completion]) ∧
    runUpdates (ts.map (fun t2 => (false, t2)))
        { st with printedEnd := true } ecm =
      ({ st with printedEnd := true }, ecm, []) := by
  refine ⟨by simp [LogPlayback.Update, hend, hpe], ?_⟩
  exact runUpdates_latched ts { st with printedEnd := true } ecm hend rfl

/-- Witness: an exhausted one-message-free log emits completion on the
first tick and nothing on two later ticks. -/
theorem completion_emitted_once_witness :
    LogPlayback.Update false 0 ⟨[], 0, false⟩ ⟨[]⟩ =
      (⟨[], 0, true⟩, ⟨[]⟩, [.completion]) ∧
    runUpdates [(false, 1), (false, 2)] ⟨[], 0, true⟩ ⟨[]⟩ =
      (⟨[], 0, true⟩, ⟨[]⟩, []) :=
  completion_emitted_once ⟨[], 0, false⟩ ⟨[]⟩ 0 [1, 2] rfl rfl

/-! ## C2 -/

/-- C2: a non-paused `Update` with a non-exhausted cursor waits without
advancing the cursor or touching the ECM while `simTime` is strictly
below the `TimeReceived` of the current message; otherwise it consumes exactly
the current message, advancing the cursor by one: a `Pose_V` or
`SerializedState` message is applied to the ECM, any other kind only
emits a warning. -/
theorem update_consumes_at_most_one (st : PlaybackState) (ecm : Ecm)
    (simTime : Rat) (msg : LogMsg) (hmsg : st.batch[st.idx]? = some msg) :
    (simTime < msg.timeReceived →
      LogPlayback.Update false simTime st ecm = (st, ecm, [])) ∧
    (¬ simTime < msg.timeReceived →
      LogPlayback.Update false simTime st ecm =
        (match msg with
         | .poseV _ poses =>
             ({ st with idx := st.idx + 1 }, ParsePoseV poses ecm,
               ([] : List Emission))
         | .serializedState _ snap =>
             ({ st with idx := st.idx + 1 }, SetState snap ecm, [])
         | .unsupported _ ty =>
             ({ st with idx := st.idx + 1 }, ecm, [.warnUnsupported ty]))) := by
  constructor
  · intro hlt
    simp [LogPlayback.Update, hmsg, hlt]
  · intro hge
    cases msg <;> simp [LogPlayback.Update, hmsg, hge]

/-- Witness: with one unsupported message stamped at time 2, a tick at
time 1 waits and changes nothing; a tick at time 2 warns and advances the
cursor by one while leaving the ECM alone. -/
theorem update_consumes_at_most_one_witness :
    ((1 : Rat) < 2 ∧
      LogPlayback.Update false 1 ⟨[.unsupported 2 "foo.Bar"], 0, false⟩ ⟨[]⟩ =
        (⟨[.unsupported 2 "foo.Bar"], 0, false⟩, ⟨[]⟩, [])) ∧
    (¬ (2 : Rat) < 2 ∧
      LogPlayback.Update false 2 ⟨[.unsupported 2 "foo.Bar"], 0, false⟩ ⟨[]⟩ =
        (⟨[.unsupported 2 "foo.Bar"], 1, false⟩, ⟨[]⟩,
          [.warnUnsupported "foo.Bar"])) :=
  ⟨⟨by norm_num,
    (update_consumes_at_most_one ⟨[.unsupported 2 "foo.Bar"], 0, false⟩ ⟨[]⟩ 1
      (.unsupported 2 "foo.Bar") rfl).1 (by norm_num [LogMsg.timeReceived])⟩,
   ⟨by norm_num,
    (update_consumes_at_most_one ⟨[.unsupported 2 "foo.Bar"], 0, false⟩ ⟨[]⟩ 2
      (.unsupported 2 "foo.Bar") rfl).2 (by norm_num [LogMsg.timeReceived])⟩⟩

/-! ## C10 -/

/-- Lemma: `parsePoseVEntity` keeps the entity id. -/
theorem parsePoseVEntity_id (poses : List PoseRec) (ent : EcmEntity) :
    (parsePoseVEntity poses ent).id = ent.id := by
  unfold parsePoseVEntity
  split
  · rfl
  · split <;> rfl

/-- Lemma: `parsePoseVEntity` keeps all components other than `Pose`. -/
theorem parsePoseVEntity_other (poses : List PoseRec) (ent : EcmEntity) :
    (parsePoseVEntity poses ent).other = ent.other := by
  unfold parsePoseVEntity
  split
  · rfl
  · split <;> rfl

/-- Lemma: `parsePoseVEntity` never attaches or detaches a `Pose` component. -/
theorem parsePoseVEntity_isSome (poses : List PoseRec) (ent : EcmEntity) :
    (parsePoseVEntity poses ent).pose.isSome = ent.pose.isSome := by
  unfold parsePoseVEntity
  split
  · rfl
  · rename_i p0 h0
    split
    · rfl
    · simp [h0]

/-- C10: applying a `Pose_V` message creates no entities and no
components: entity ids, non-`Pose` components and `Pose`-component
presence are all preserved; an entity without a recorded pose or without
a `Pose` component is untouched, and an entity with both gets exactly the
recorded pose. -/
theorem parsePoseV_frame_conditions (poses : List PoseRec) (ecm : Ecm) :
    (ParsePoseV poses ecm).entities.map (fun e => e.id) =
      ecm.entities.map (fun e => e.id) ∧
    (ParsePoseV poses ecm).entities.map (fun e => e.other) =
      ecm.entities.map (fun e => e.other) ∧
    (ParsePoseV poses ecm).entities.map (fun e => e.pose.isSome) =
      ecm.entities.map (fun e => e.pose.isSome) ∧
    ∀ ent ∈ ecm.entities,
      (idToPose poses ent.id = none → parsePoseVEntity poses ent = ent) ∧
      (ent.pose = none → parsePoseVEntity poses ent = ent) ∧
      (∀ p0 p, ent.pose = some p0 → idToPose poses ent.id = some p →
        parsePoseVEntity poses ent = { ent with pose := some p }) := by
  refine ⟨?_, ?_, ?_, ?_⟩
  · simp only [ParsePoseV, List.map_map]
    exact List.map_congr_left (fun ent _ => parsePoseVEntity_id poses ent)
  · simp only [ParsePoseV, List.map_map]
    exact List.map_congr_left (fun ent _ => parsePoseVEntity_other poses ent)
  · simp only [ParsePoseV, List.map_map]
    exact List.map_congr_left (fun ent _ => parsePoseVEntity_isSome poses ent)
  · intro ent _
    refine ⟨fun hid => ?_, fun hp => ?_, fun p0 p hp hid => ?_⟩
    · unfold parsePoseVEntity
      split
      · rfl
      · simp [hid]
    · simp [parsePoseVEntity, hp]
    · simp [parsePoseVEntity, hp, hid]

/-! ## C4 -/

/-- C4: whenever Configure reaches the plugin-filtering stage, the
`LoadPlugins` event carries exactly the plugins of the loaded scene whose
name attribute does not contain `LogRecord` or `Physics`; all others are
removed. -/
theorem configure_filters_plugins (cfg : ConfigInput)
    (hpath : cfg.path.isEmpty = false) (hdir : cfg.isDirectory = true)
    (htlog : cfg.tlogExists = true) (hsdf : cfg.sdfExists = true)
    (hload : cfg.sdfLoadOk = true) :
    (LogPlayback.Configure cfg).2.1 =
      some { plugins := cfg.plugins.filter (fun p => !pluginRemoved p) } := by
  simp [LogPlayback.Configure, hpath, hdir, htlog, hsdf, hload]

/-- Witness (scenario S4): of the plugins `MyLogRecord`, `BulletPhysics`
and `KeyboardInput`, only `KeyboardInput` survives Configure and is
forwarded via the `LoadPlugins` event. -/
theorem configure_filters_plugins_witness :
    (LogPlayback.Configure
      ⟨"/tmp/log", true, true, true, true,
        [⟨some "MyLogRecord", "a"⟩, ⟨some "BulletPhysics", "b"⟩,
         ⟨some "KeyboardInput", "c"⟩], true, [.poseV 1 []]⟩).2.1 =
      some { plugins := [⟨some "KeyboardInput", "c"⟩] } :=
  (configure_filters_plugins
    ⟨"/tmp/log", true, true, true, true,
      [⟨some "MyLogRecord", "a"⟩, ⟨some "BulletPhysics", "b"⟩,
       ⟨some "KeyboardInput", "c"⟩], true, [.poseV 1 []]⟩
    rfl rfl rfl rfl rfl).trans (by decide)

/-! ## C5 -/

/-- An `Update` on a state with an empty batch leaves the ECM unchanged,
keeps the batch empty, and emits no error. -/
theorem update_empty_batch (p : Bool) (t : Rat) (st : PlaybackState)
    (ecm : Ecm) (hb : st.batch = []) :
    (LogPlayback.Update p t st ecm).2.1 = ecm ∧
    (LogPlayback.Update p t st ecm).1.batch = [] ∧
    ((LogPlayback.Update p t st ecm).2.2.all (fun e => !e.isError)) = true := by
  cases p
  · have hnone : st.batch[st.idx]? = none := by simp [hb]
    cases hpe : st.printedEnd <;>
      simp [LogPlayback.Update, hnone, hpe, hb, Emission.isError]
  · simp [LogPlayback.Update, hb]

/-- Any sequence of `Update` calls on a state with an empty batch leaves
the ECM unchanged and emits no error. -/
theorem runUpdates_empty_batch (inputs : List (Bool × Rat))
    (st : PlaybackState) (ecm : Ecm) (hb : st.batch = []) :
    (runUpdates inputs st ecm).2.1 = ecm ∧
    ((runUpdates inputs st ecm).2.2.all (fun e => !e.isError)) = true := by
  induction inputs generalizing st ecm with
  | nil => simp [runUpdates]
  | cons i rest ih =>
    obtain ⟨p, t⟩ := i
    obtain ⟨h1, h2, h3⟩ := update_empty_batch p t st ecm hb
    obtain ⟨h4, h5⟩ := ih (LogPlayback.Update p t st ecm).1
      (LogPlayback.Update p t st ecm).2.1 h2
    refine ⟨by simpa [runUpdates, h1] using h4, ?_⟩
    simp [runUpdates, List.all_append, h3, h5]

/-- C5: every configuration failure (missing path, not a directory,
missing `state.tlog`/`state.sdf`, scene load failure, log open failure,
empty log) is reported on the error channel at Configure time, leaves an
empty batch (the system is disabled), and every subsequent `Update`
leaves the ECM unchanged and reports no further error. -/
theorem configure_error_disables (cfg : ConfigInput)
    (inputs : List (Bool × Rat)) (ecm : Ecm)
    (herr : configError cfg = true) :
    (LogPlayback.Configure cfg).1.batch = [] ∧
    (LogPlayback.Configure cfg).2.2 ≠ [] ∧
    ((LogPlayback.Configure cfg).2.2.all Emission.isError) = true ∧
    (runUpdates inputs (LogPlayback.Configure cfg).1 ecm).2.1 = ecm ∧
    ((runUpdates inputs (LogPlayback.Configure cfg).1 ecm).2.2.all
      (fun e => !e.isError)) = true := by
  have hbatch : (LogPlayback.Configure cfg).1.batch = [] ∧
      (LogPlayback.Configure cfg).2.2 ≠ [] ∧
      ((LogPlayback.Configure cfg).2.2.all Emission.isError) = true := by
    cases h1 : cfg.path.isEmpty
    · cases h2 : cfg.isDirectory
      · simp [LogPlayback.Configure, h1, h2, Emission.isError]
      · cases h3 : cfg.tlogExists
        · simp [LogPlayback.Configure, h1, h2, h3, Emission.isError]
        · cases h4 : cfg.sdfExists
          · simp [LogPlayback.Configure, h1, h2, h3, h4, Emission.isError]
          · cases h5 : cfg.sdfLoadOk
            · simp [LogPlayback.Configure, h1, h2, h3, h4, h5, Emission.isError]
            · cases h6 : cfg.logOpenOk
              · simp [LogPlayback.Configure, h1, h2, h3, h4, h5, h6,
                  Emission.isError]
              · cases hm : cfg.messages
                · simp [LogPlayback.Configure, h1, h2, h3, h4, h5, h6, hm,
                    Emission.isError]
                · exfalso
                  simp [configError, h1, h2, h3, h4, h5, h6, hm] at herr
    · simp [LogPlayback.Configure, h1, Emission.isError]
  obtain ⟨hb, hne, hall⟩ := hbatch
  obtain ⟨hu1, hu2⟩ := runUpdates_empty_batch inputs (LogPlayback.Configure cfg).1 ecm hb
  exact ⟨hb, hne, hall, hu1, hu2⟩

/-- Witness: Configure with an empty `path` errors and disables the
system; three subsequent ticks leave the ECM untouched and report no
error. -/
theorem configure_error_disables_witness :
    (LogPlayback.Configure ⟨"", false, false, false, false, [], false, []⟩).1.batch = [] ∧
    (LogPlayback.Configure ⟨"", false, false, false, false, [], false, []⟩).2.2 ≠ [] ∧
    ((LogPlayback.Configure ⟨"", false, false, false, false, [], false, []⟩).2.2.all
      Emission.isError) = true ∧
    (runUpdates [(false, 0), (true, 1), (false, 2)]
      (LogPlayback.Configure ⟨"", false, false, false, false, [], false, []⟩).1
      ⟨[⟨5, none, [("Name", "probe")]⟩]⟩).2.1 = ⟨[⟨5, none, [("Name", "probe")]⟩]⟩ ∧
    ((runUpdates [(false, 0), (true, 1), (false, 2)]
      (LogPlayback.Configure ⟨"", false, false, false, false, [], false, []⟩).1
      ⟨[⟨5, none, [("Name", "probe")]⟩]⟩).2.2.all (fun e => !e.isError)) = true :=
  configure_error_disables ⟨"", false, false, false, false, [], false, []⟩
    [(false, 0), (true, 1), (false, 2)] ⟨[⟨5, none, [("Name", "probe")]⟩]⟩ rfl

/-! ## C8 -/

/-- C8: decoding the encoded wire representation of any geometry value
reproduces it exactly, preserving every attribute. -/
theorem geometry_roundtrip (g : GeometryShape) :
    decodeGeometry (encodeGeometry g) = g := by
  cases g <;> rfl

/-! ## C3 -/

/-- The while loop of the resolver, run along a world-terminated ancestor
chain, prepends one `/model/name` segment per non-world ancestor,
innermost first. -/
theorem topicLoop_ascends (ecm : TopicEcm) {p : Option Nat}
    {names : List String} (h : Ascends ecm p names) :
    ∀ fuel base, names.length < fuel →
      topicLoop ecm fuel p base =
        .ok (names.foldl (fun acc n => ("/model/" ++ n) ++ acc) base) := by
  induction h with
  | world w hw =>
    intro fuel base hf
    cases fuel with
    | zero => simp at hf
    | succ f => simp [topicLoop, hw]
  | step e n rest hw hn hrec ih =>
    intro fuel base hf
    cases fuel with
    | zero => simp at hf
    | succ f =>
      have hf2 : rest.length < f := by
        simpa [List.length_cons] using Nat.lt_of_succ_lt_succ hf
      simp only [topicLoop, hw, Bool.false_eq_true, if_false, hn,
        List.foldl_cons]
      exact ih f (("/model/" ++ n) ++ base) hf2

/-- The innermost-first prepending of the loop equals the outermost-first
concatenation of `/model/name` segments in front of the base topic. -/
theorem foldl_prepend_eq_reverse_join (names : List String) (base : String) :
    names.foldl (fun acc n => ("/model/" ++ n) ++ acc) base =
      (names.reverse.map (fun n => "/model/" ++ n)).foldr
        (fun a b => a ++ b) base := by
  induction names generalizing base with
  | nil => rfl
  | cons n ns ih =>
    rw [List.foldl_cons, ih, List.reverse_cons, List.map_append,
      List.foldr_append]
    rfl

/-- C3: for a sensor with no topic override (absent or empty `<topic>`),
when the sensor, its link and a world-terminated ancestor chain are all
named, the configured topic is the default of the resolver:
`"/link/" + linkName + "/sensor/" + sensorName + "/altimeter"` prefixed
by one `"/model/" + ancestorName` per non-world ancestor above the link,
accumulated outermost-first. -/
theorem defaultTopic_nested_models (ecm : TopicEcm) (fuel entity link : Nat)
    (sensorName linkName : String) (names : List String)
    (override : Option String)
    (hsn : ecm.name entity = some sensorName)
    (hp : ecm.parent entity = some link)
    (hln : ecm.name link = some linkName)
    (hchain : Ascends ecm (ecm.parent link) names)
    (hfuel : names.length < fuel)
    (hover : override = none ∨ override = some "") :
    DefaultTopic ecm fuel entity =
      .ok ((names.reverse.map (fun n => "/model/" ++ n)).foldr
        (fun a b => a ++ b)
        ("/link/" ++ linkName ++ "/sensor/" ++ sensorName ++ "/altimeter")) ∧
    configuredTopic override
        ((names.reverse.map (fun n => "/model/" ++ n)).foldr
          (fun a b => a ++ b)
          ("/link/" ++ linkName ++ "/sensor/" ++ sensorName ++ "/altimeter")) =
      (names.reverse.map (fun n => "/model/" ++ n)).foldr
        (fun a b => a ++ b)
        ("/link/" ++ linkName ++ "/sensor/" ++ sensorName ++ "/altimeter") := by
  have h1 : DefaultTopic ecm fuel entity =
      .ok (names.foldl (fun acc n => ("/model/" ++ n) ++ acc)
        ("/link/" ++ linkName ++ "/sensor/" ++ sensorName ++ "/altimeter")) := by
    simp only [DefaultTopic, hsn, hp, hln]
    exact topicLoop_ascends ecm hchain fuel _ hfuel
  constructor
  · rw [h1, foldl_prepend_eq_reverse_join]
  · rcases hover with rfl | rfl <;> rfl

/-- Witness (scenario S2): altimeter `alt0` with no topic override under
link `arm` under model `tool` under model `robot` under world resolves to
`/model/robot/model/tool/link/arm/sensor/alt0/altimeter`. -/
theorem defaultTopic_nested_models_witness :
    DefaultTopic s2TopicEcm 3 4 =
      .ok "/model/robot/model/tool/link/arm/sensor/alt0/altimeter" ∧
    configuredTopic none
        "/model/robot/model/tool/link/arm/sensor/alt0/altimeter" =
      "/model/robot/model/tool/link/arm/sensor/alt0/altimeter" := by
  have hchain : Ascends s2TopicEcm (s2TopicEcm.parent 3) ["tool", "robot"] := by
    have h2 : Ascends s2TopicEcm (s2TopicEcm.parent 1) [] :=
      Ascends.world 0 (by decide)
    have h1 : Ascends s2TopicEcm (s2TopicEcm.parent 2) ["robot"] :=
      Ascends.step 1 "robot" [] (by decide) (by decide) h2
    exact Ascends.step 2 "tool" ["robot"] (by decide) (by decide) h1
  have h := defaultTopic_nested_models s2TopicEcm 3 4 3 "alt0" "arm"
    ["tool", "robot"] none rfl rfl rfl hchain (by decide) (Or.inl rfl)
  exact ⟨h.1.trans (by rfl), h.2.symm.trans (by rfl)⟩

/-! ## C7 -/

/-- C7 (code bug): resolving the default topic of sensor 2, whose link 1
carries no `Name` component, reaches the unchecked dereference of the
absent-component sentinel (`Component<Name>` returned null) instead of
failing fast with a descriptive error: no error channel exists in
`DefaultTopic`. -/
theorem defaultTopic_derefs_absent_name :
    DefaultTopic badTopicEcm 3 2 = .nullDeref := by rfl

/-! ## C1 -/

/-- Overwriting a present key makes `getSensor` return the new record. -/
theorem getSensor_setSensor_self :
    ∀ (m : List (Nat × AltimeterSensor)) (i : Nat) (s0 s : AltimeterSensor),
      getSensor m i = some s0 → getSensor (setSensor m i s) i = some s := by
  intro m
  induction m with
  | nil => intro i s0 s h; simp [getSensor] at h
  | cons p rest ih =>
    intro i s0 s h
    by_cases hp : p.1 = i
    · simp [getSensor, setSensor, hp]
    · simp only [getSensor, setSensor, hp, if_false] at h ⊢
      exact ih i s0 s h

/-- Overwriting key `i` does not change lookups at other keys. -/
theorem getSensor_setSensor_ne :
    ∀ (m : List (Nat × AltimeterSensor)) (i j : Nat) (s : AltimeterSensor),
      i ≠ j → getSensor (setSensor m i s) j = getSensor m j := by
  intro m
  induction m with
  | nil => intro i j s _; rfl
  | cons p rest ih =>
    intro i j s hne
    by_cases hp : p.1 = i
    · simp only [getSensor, setSensor, hp, if_true]
      simp only [getSensor, hne, if_false]
      exact ih i j s hne
    · simp only [getSensor, setSensor, hp, if_false]
      by_cases hj : p.1 = j
      · simp [getSensor, hj]
      · simp only [getSensor, hj, if_false]
        exact ih i j s hne

/-- A found sensor record is an entry of the map. -/
theorem mem_of_getSensor :
    ∀ (m : List (Nat × AltimeterSensor)) (i : Nat) (s : AltimeterSensor),
      getSensor m i = some s → (i, s) ∈ m := by
  intro m
  induction m with
  | nil => intro i s h; simp [getSensor] at h
  | cons p rest ih =>
    intro i s h
    by_cases hp : p.1 = i
    · simp only [getSensor, hp, if_true, Option.some.injEq] at h
      have : (i, s) = p := by
        cases p
        simp only at hp
        simp only at h
        rw [hp, h]
      rw [this]
      exact List.mem_cons_self _ _
    · simp only [getSensor, hp, if_false] at h
      exact List.mem_cons_of_mem _ (ih i s h)

/-- Processing an entity with a different id leaves a lookup at a key
unchanged. -/
theorem updateAltStep_getSensor_ne
    (acc : List (Nat × AltimeterSensor) × List AltEmission) (y : AltEntity)
    (j : Nat) (hne : y.id ≠ j) :
    getSensor (updateAltStep acc y).1 j = getSensor acc.1 j := by
  unfold updateAltStep
  by_cases hm : altMatches y
  · simp only [hm, if_true]
    cases hw : y.worldPose with
    | none => rfl
    | some wp =>
      cases hv : y.worldLinearVelocity with
      | none => rfl
      | some v =>
        cases hg : getSensor acc.1 y.id with
        | none => rfl
        | some s =>
          simp only
          exact getSensor_setSensor_ne acc.1 y.id j _ hne
  · simp [hm]

/-- The visitor fold leaves a key alone when no visited entity carries
it. -/
theorem foldl_updateAltStep_untouched (l : List AltEntity) (j : Nat) :
    ∀ acc, (∀ y ∈ l, y.id ≠ j) →
      getSensor (l.foldl updateAltStep acc).1 j = getSensor acc.1 j := by
  induction l with
  | nil => intro acc _; rfl
  | cons x xs ih =>
    intro acc h
    rw [List.foldl_cons,
      ih _ (fun y hy => h y (List.mem_cons_of_mem _ hy))]
    exact updateAltStep_getSensor_ne acc x j (h x (List.mem_cons_self _ _))

/-- Running the `UpdateAltimeters` fold over an entity list with distinct
ids updates the mapped record of each fully-equipped altimeter entity to
the derived reading. -/
theorem foldl_updateAltStep_entity :
    ∀ (l : List AltEntity) (acc : List (Nat × AltimeterSensor) × List AltEmission)
      (e : AltEntity) (wp : Pose3) (v : Vec3) (s : AltimeterSensor),
      e ∈ l → (l.map (fun x => x.id)).Nodup →
      e.hasAltimeter = true → e.worldPose = some wp →
      e.worldLinearVelocity = some v → getSensor acc.1 e.id = some s →
      getSensor (l.foldl updateAltStep acc).1 e.id =
        some { s with verticalPosition := wp.pos.z - s.verticalReference
                      verticalVelocity := v.z } := by
  intro l
  induction l with
  | nil => intro acc e wp v s hmem; exact absurd hmem (List.not_mem_nil e)
  | cons x xs ih =>
    intro acc e wp v s hmem hnd halt hwp hv hs
    rcases List.mem_cons.mp hmem with heq | hmem2
    · subst heq
      have hmatch : altMatches e = true := by
        simp [altMatches, halt, hwp, hv]
      have hstep : (updateAltStep acc e).1 =
          setSensor acc.1 e.id
            { s with verticalPosition := wp.pos.z - s.verticalReference
                     verticalVelocity := v.z } := by
        simp [updateAltStep, hmatch, hwp, hv, hs]
      have hno : ∀ y ∈ xs, y.id ≠ e.id := by
        intro y hy hcontra
        have h1 : e.id ∉ xs.map (fun x => x.id) :=
          (List.nodup_cons.mp (by simpa using hnd)).1
        exact h1 (hcontra ▸ List.mem_map_of_mem _ hy)
      rw [List.foldl_cons, foldl_updateAltStep_untouched xs e.id _ hno]
      rw [hstep]
      exact getSensor_setSensor_self acc.1 e.id s _ hs
    · have hxid : x.id ≠ e.id := by
        intro hcontra
        have h1 : x.id ∉ xs.map (fun y => y.id) :=
          (List.nodup_cons.mp (by simpa using hnd)).1
        exact h1 (hcontra ▸ List.mem_map_of_mem _ hmem2)
      rw [List.foldl_cons]
      refine ih (updateAltStep acc x) e wp v s hmem2
        (by simpa using (List.nodup_cons.mp (by simpa using hnd)).2)
        halt hwp hv ?_
      rw [updateAltStep_getSensor_ne acc x e.id hxid]
      exact hs

/-- C1: for an entity with `Altimeter`, `WorldPose` and
`WorldLinearVelocity` components that is present in the sensor map, a
non-paused `PostUpdate` sets the `verticalPosition` of its sensor to
worldPose.Z − verticalReference and its `verticalVelocity` to
worldLinearVelocity.Z; hence verticalPosition + verticalReference equals
worldPose.Z, and (for a non-empty topic) exactly that reading is
published. -/
theorem altimeter_postupdate_reading (ecm : List AltEntity)
    (m : List (Nat × AltimeterSensor)) (e : AltEntity) (wp : Pose3)
    (v : Vec3) (s : AltimeterSensor) (hmem : e ∈ ecm)
    (hnd : (ecm.map (fun x => x.id)).Nodup)
    (halt : e.hasAltimeter = true) (hwp : e.worldPose = some wp)
    (hv : e.worldLinearVelocity = some v)
    (hs : getSensor m e.id = some s) :
    getSensor (Altimeter.PostUpdate false ecm m).1 e.id =
      some { s with verticalPosition := wp.pos.z - s.verticalReference
                    verticalVelocity := v.z } ∧
    (wp.pos.z - s.verticalReference) + s.verticalReference = wp.pos.z ∧
    (s.topic.isEmpty = false →
      (e.id, ({ vertical_position := wp.pos.z - s.verticalReference
                vertical_velocity := v.z
                vertical_reference := s.verticalReference } : AltimeterMsg)) ∈
        (Altimeter.PostUpdate false ecm m).2.2) := by
  have hkey : getSensor (UpdateAltimeters ecm m).1 e.id =
      some { s with verticalPosition := wp.pos.z - s.verticalReference
                    verticalVelocity := v.z } :=
    foldl_updateAltStep_entity ecm (m, []) e wp v s hmem hnd halt hwp hv hs
  refine ⟨by simpa [Altimeter.PostUpdate] using hkey, by ring, ?_⟩
  intro htopic
  have hmem2 : (e.id,
      { s with verticalPosition := wp.pos.z - s.verticalReference
               verticalVelocity := v.z }) ∈ (UpdateAltimeters ecm m).1 :=
    mem_of_getSensor _ _ _ hkey
  simp only [Altimeter.PostUpdate, Bool.false_eq_true, if_false]
  refine List.mem_filterMap.mpr ⟨(e.id,
    { s with verticalPosition := wp.pos.z - s.verticalReference
             verticalVelocity := v.z }), hmem2, ?_⟩
  simp [altPublish, htopic]

/-- Witness: a single altimeter entity at world Z = 5 with reference 2
and upward velocity 3 yields an updated sensor reading (3, 3, 2) whose
position plus reference is 5, published on its topic. -/
theorem altimeter_postupdate_reading_witness :
    getSensor (Altimeter.PostUpdate false
      [⟨7, true, some ⟨⟨1, 2, 5⟩, ⟨1, 0, 0, 0⟩⟩, some ⟨0, 0, 3⟩⟩]
      [(7, ⟨"/model/rover/link/base/sensor/alt0/altimeter", 0, 0, 2⟩)]).1 7 =
      some ⟨"/model/rover/link/base/sensor/alt0/altimeter", 3, 3, 2⟩ ∧
    ((5 : Rat) - 2) + 2 = 5 ∧
    (("/model/rover/link/base/sensor/alt0/altimeter" : String).isEmpty = false →
      ((7 : Nat), (⟨3, 3, 2⟩ : AltimeterMsg)) ∈
        (Altimeter.PostUpdate false
          [⟨7, true, some ⟨⟨1, 2, 5⟩, ⟨1, 0, 0, 0⟩⟩, some ⟨0, 0, 3⟩⟩]
          [(7, ⟨"/model/rover/link/base/sensor/alt0/altimeter", 0, 0, 2⟩)]).2.2) := by
  have h := altimeter_postupdate_reading
    [⟨7, true, some ⟨⟨1, 2, 5⟩, ⟨1, 0, 0, 0⟩⟩, some ⟨0, 0, 3⟩⟩]
    [(7, ⟨"/model/rover/link/base/sensor/alt0/altimeter", 0, 0, 2⟩)]
    ⟨7, true, some ⟨⟨1, 2, 5⟩, ⟨1, 0, 0, 0⟩⟩, some ⟨0, 0, 3⟩⟩
    ⟨⟨1, 2, 5⟩, ⟨1, 0, 0, 0⟩⟩ ⟨0, 0, 3⟩
    ⟨"/model/rover/link/base/sensor/alt0/altimeter", 0, 0, 2⟩
    (List.mem_singleton.mpr rfl) (by decide) rfl rfl rfl rfl
  refine ⟨?_, by norm_num, ?_⟩
  · have h1 := h.1
    norm_num at h1 ⊢
    convert h1 using 2
  · intro ht
    have h3 := h.2.2 (by decide)
    norm_num at h3 ⊢
    convert h3 using 3

end IgnGazebo
